import Mathlib

/-!
Verification development for the Merry-Tree particle/gesture application.

The development shallowly embeds the two core source components:

* `src/components/GestureController.tsx` — the per-frame hand-gesture
  classifier (openness metric with hysteresis thresholds) and the dwell-timer
  state machine driving the application state (`predictWebcam`, lines 96-160).
* `src/unnamed/part_000` (`ChristmasParticles`) — the per-frame particle
  engine: target selection, lerp interpolation, pointer repulsion applied to a
  working copy, and the initialization-time scale/category assignment.

Numbers are modelled as exact rationals (the source runs on JS doubles; all
branch thresholds and the claims' concrete inputs are exact in ℚ).  The one
transcendental operation the claims depend on, `Math.sqrt` in the repulsion
step, is passed as an explicit argument `dist`; theorems constrain it by the
defining property `dist * dist = dist2 …  ∧ 0 ≤ dist` of the square root.
Timestamps (`Date.now()`, milliseconds) are naturals; the source stores the
dwell start in `openHandStartTime` with `0` meaning "unset", and that sentinel
convention is kept verbatim.
-/

namespace MerryTree

/-- Application state enum (`AppState` from `src/types`, as used by
`GestureController.tsx` and `ChristmasParticles`): `SCATTERED`, `TREE_SHAPE`,
`TEXT_SHAPE`. -/
inductive AppState
  | SCATTERED
  | TREE_SHAPE
  | TEXT_SHAPE
deriving DecidableEq, Repr

/-- Classification signal of one frame: hand clearly open, clearly closed, or
no clear gesture (no hand, or openness metric inside the hysteresis dead
band). -/
inductive Signal
  | OPEN
  | CLOSED
  | UNKNOWN
deriving DecidableEq, Repr

/-- A 3D point with rational coordinates: used both for hand landmarks
(`{x,y,z}` records from the landmark source) and for `THREE.Vector3` particle
positions. -/
structure Vec3 where
  x : ℚ
  y : ℚ
  z : ℚ
deriving DecidableEq, Repr

/-- Hysteresis upper threshold (`OPEN_THRESHOLD = 0.35`,
GestureController.tsx line 126). -/
def OPEN_THRESHOLD : ℚ := 35 / 100

/-- Hysteresis lower threshold (`CLOSE_THRESHOLD = 0.25`,
GestureController.tsx line 127). -/
def CLOSE_THRESHOLD : ℚ := 25 / 100

/-- Classification of the openness metric `avgDist` by the two hysteresis
thresholds, mirroring the branch structure of GestureController.tsx lines
129-151: `avgDist > OPEN_THRESHOLD` → OPEN branch, else
`avgDist < CLOSE_THRESHOLD` → CLOSED branch, else neither branch runs
(UNKNOWN). -/
def classify (avgDist : ℚ) : Signal :=
  if OPEN_THRESHOLD < avgDist then Signal.OPEN
  else if avgDist < CLOSE_THRESHOLD then Signal.CLOSED
  else Signal.UNKNOWN

/-- The mutable state of the gesture controller: the React application state
and the dwell timer `openHandStartTime` (GestureController.tsx line 19), with
`0` meaning "unset" exactly as in the source. -/
structure GestureMachine where
  appState : AppState
  openHandStartTime : Nat
deriving DecidableEq, Repr

/-- One frame's input to `predictWebcam` after detection: either no hand was
detected, or a hand with the computed openness metric `avgDist` at timestamp
`now = Date.now()`. -/
inductive FrameInput
  | noHand (now : Nat)
  | hand (avgDist : ℚ) (now : Nat)
deriving DecidableEq, Repr

/-- The classification signal an input frame carries: no hand is UNKNOWN, a
hand is classified by its metric. -/
def inputSignal : FrameInput → Signal
  | FrameInput.noHand _ => Signal.UNKNOWN
  | FrameInput.hand avgDist _ => classify avgDist

/-- One step of the gesture state machine, embedding GestureController.tsx
lines 108-155.  With a hand present (metric `avgDist`, timestamp `now`):
if `avgDist > OPEN_THRESHOLD`, then an unset timer is started at `now` with
`setAppState(SCATTERED)`; a set timer past 5000 ms gives
`setAppState(TEXT_SHAPE)`; otherwise
`setAppState(prev => prev === TEXT_SHAPE ? TEXT_SHAPE : SCATTERED)`.
If `avgDist < CLOSE_THRESHOLD`, the timer is reset and state set to
`TREE_SHAPE`.  Otherwise (dead band) neither branch runs.  With no hand, only
`openHandStartTime = 0` is executed (lines 152-155). -/
def stepFrame (m : GestureMachine) : FrameInput → GestureMachine
  | FrameInput.noHand _ => { m with openHandStartTime := 0 }
  | FrameInput.hand avgDist now =>
    if OPEN_THRESHOLD < avgDist then
      if m.openHandStartTime = 0 then
        { appState := AppState.SCATTERED, openHandStartTime := now }
      else if 5000 < now - m.openHandStartTime then
        { m with appState := AppState.TEXT_SHAPE }
      else
        { m with appState :=
            if m.appState = AppState.TEXT_SHAPE then AppState.TEXT_SHAPE
            else AppState.SCATTERED }
    else if avgDist < CLOSE_THRESHOLD then
      { appState := AppState.TREE_SHAPE, openHandStartTime := 0 }
    else m

/-- Feeding a whole sequence of frames to the machine, in order. -/
def runFrames (m : GestureMachine) (fs : List FrameInput) : GestureMachine :=
  fs.foldl stepFrame m

/-- The machine's state at startup: React initial application state
`SCATTERED` and `openHandStartTime = 0`. -/
def initialMachine : GestureMachine :=
  { appState := AppState.SCATTERED, openHandStartTime := 0 }

/-- Lookup of the wrist (`landmarks[0]`) and four fingertip landmarks
(`[8, 12, 16, 20].map(i => landmarks[i])`, GestureController.tsx lines
111-112).  In JS a missing index yields `undefined` and the subsequent
property access `tip.x` / `wrist.x` in the distance loop (lines 115-122)
throws a TypeError; a lookup outside the list is therefore modelled as
`Except.error`. -/
def gatherLandmarks (landmarks : List Vec3) :
    Except Unit (Vec3 × Vec3 × Vec3 × Vec3 × Vec3) :=
  match landmarks.get? 0, landmarks.get? 8, landmarks.get? 12,
      landmarks.get? 16, landmarks.get? 20 with
  | some w, some t8, some t12, some t16, some t20 =>
      Except.ok (w, t8, t12, t16, t20)
  | _, _, _, _, _ => Except.error ()

/-- Outcome of a detection frame that reported a hand with landmark list
`landmarks`: the source dereferences the wrist and fingertip landmarks with no
length guard before computing the metric, so a short list throws (error) and
the machine update never runs; otherwise the machine steps with the computed
metric `avgDist` (the mean fingertip-to-wrist distance, whose `Math.sqrt`
values are abstracted into the `avgDist` argument) at timestamp `now`. -/
def handFrameOutcome (m : GestureMachine) (landmarks : List Vec3)
    (avgDist : ℚ) (now : Nat) : Except Unit GestureMachine :=
  match gatherLandmarks landmarks with
  | Except.error _ => Except.error ()
  | Except.ok _ => Except.ok (stepFrame m (FrameInput.hand avgDist now))

/-- Particle category (`type` field, `'ornament' | 'needle'` in
`src/types`): ornaments are the sparse decorations, needles the fillers. -/
inductive ParticleType
  | ornament
  | needle
deriving DecidableEq, Repr

/-- An RGB color, kept abstract as three rationals (the palette values are
irrelevant to the claims). -/
structure Color3 where
  r : ℚ
  g : ℚ
  b : ℚ
deriving DecidableEq, Repr

/-- Per-particle record (`ParticleData` from `src/types`, fields as pushed at
part_000 lines 75-85). -/
structure ParticleData where
  id : Nat
  scatterPosition : Vec3
  treePosition : Vec3
  textPosition : Vec3
  currentPosition : Vec3
  color : Color3
  scale : ℚ
  rotationSpeed : Vec3
  type : ParticleType
deriving DecidableEq, Repr

/-- `THREE.Vector3.lerp(v, alpha)`: each coordinate is advanced by
`(target − this) * alpha` (this is the three.js source of the call at
part_000 line 167; alpha is not clamped). -/
def lerpVec (v target : Vec3) (alpha : ℚ) : Vec3 :=
  { x := v.x + (target.x - v.x) * alpha
    y := v.y + (target.y - v.y) * alpha
    z := v.z + (target.z - v.z) * alpha }

/-- Squared Euclidean distance between two points.  The source's
`distanceTo` and the explicit `Math.sqrt(dx*dx+dy*dy+dz*dz)` are the square
root of this quantity; theorems pass that root as a parameter `dist`
constrained by `dist * dist = dist2 a b ∧ 0 ≤ dist`. -/
def dist2 (a b : Vec3) : ℚ :=
  (a.x - b.x) ^ 2 + (a.y - b.y) ^ 2 + (a.z - b.z) ^ 2

/-- Target selection (part_000 lines 154-162): `TREE_SHAPE` → `treePosition`,
`TEXT_SHAPE` → `textPosition`, anything else → `scatterPosition`. -/
def targetOf (appState : AppState) (p : ParticleData) : Vec3 :=
  if appState = AppState.TREE_SHAPE then p.treePosition
  else if appState = AppState.TEXT_SHAPE then p.textPosition
  else p.scatterPosition

/-- Interpolation speed (part_000 line 166): `isText ? 2.0 : 2.5`. -/
def lerpSpeed (appState : AppState) : ℚ :=
  if appState = AppState.TEXT_SHAPE then 2 else 5 / 2

/-- Pointer interaction is active in scattered or text mode
(part_000 lines 148-151: `isScattered || isText`). -/
def isInteractionActive (appState : AppState) : Bool :=
  appState = AppState.SCATTERED || appState = AppState.TEXT_SHAPE

/-- Mouse repulsion applied to the working copy `pos` (part_000 lines
172-193).  `dist` is the value of `pos.distanceTo(mouse3D)`; the `len`
recomputed at line 184 is `Math.sqrt` of the same squared difference vector,
hence the same number, so a single argument stands for both.  Inside the
radius-8 ball and with `len > 0.01`, the position is offset by the normalized
separation vector times `push = 5.0 * (8 − dist)/8`. -/
def applyRepulsion (pos mouse3D : Vec3) (dist : ℚ) : Vec3 :=
  if dist < 8 then
    let strength := (8 - dist) / 8
    let dx := pos.x - mouse3D.x
    let dy := pos.y - mouse3D.y
    let dz := pos.z - mouse3D.z
    let len := dist
    if 1 / 100 < len then
      let push := 5 * strength
      { x := pos.x + dx / len * push
        y := pos.y + dy / len * push
        z := pos.z + dz / len * push }
    else pos
  else pos

/-- The rendered base position of a particle for this frame, before the
hover/noise offset: the freshly interpolated `currentPosition` is cloned and,
only when interaction is active and the pointer ray hit the plane this frame
(`isInteractionActive && hit`, line 172), repulsed from the pointer's world
position.  `hit = none` models a frame with no ray/plane intersection. -/
def renderBasePos (appState : AppState) (hit : Option Vec3) (cur : Vec3)
    (dist : ℚ) : Vec3 :=
  match hit with
  | some mouse3D =>
      if isInteractionActive appState then applyRepulsion cur mouse3D dist
      else cur
  | none => cur

/-- One per-frame engine update of a single particle (part_000 lines
153-201 up to the hover offset): select the target, lerp `currentPosition`
toward it by `delta * lerpSpeed` in place, then compute the rendered working
copy with repulsion.  Returns the updated particle and the rendered base
position.  `dist` is the `Math.sqrt` distance from the new current position
to the pointer world position (unused when `hit = none` or interaction is
inactive). -/
def updateParticle (appState : AppState) (hit : Option Vec3) (delta : ℚ)
    (dist : ℚ) (p : ParticleData) : ParticleData × Vec3 :=
  let target := targetOf appState p
  let newCur := lerpVec p.currentPosition target (delta * lerpSpeed appState)
  let pos := renderBasePos appState hit newCur dist
  ({ p with currentPosition := newCur }, pos)

/-- Iterating the per-frame update `n` times with no pointer hit (so the
`dist` argument is irrelevant; `0` is passed), modelling successive frames of
fixed `delta` with no repulsion. -/
def iterUpdate (appState : AppState) (delta : ℚ) : Nat → ParticleData → ParticleData
  | 0, p => p
  | n + 1, p => iterUpdate appState delta n (updateParticle appState none delta 0 p).1

/-- Initialization-time scale assignment (part_000 lines 67-73): ornaments
draw `Math.random() * 0.15 + 0.1`, needles `Math.random() * 0.08 + 0.02`;
`roll` is the `Math.random()` draw, a value in `[0, 1)`. -/
def scaleFor (isOrnament : Bool) (roll : ℚ) : ℚ :=
  if isOrnament then roll * (15 / 100) + 1 / 10
  else roll * (8 / 100) + 2 / 100

/-- Initialization-time category assignment (part_000 line 84):
`isOrnament ? 'ornament' : 'needle'`. -/
def typeFor (isOrnament : Bool) : ParticleType :=
  if isOrnament then ParticleType.ornament else ParticleType.needle

/-! ## Helper lemmas on the classifier and the state machine -/

lemma classify_eq_open_iff (avgDist : ℚ) :
    classify avgDist = Signal.OPEN ↔ OPEN_THRESHOLD < avgDist := by
  unfold classify
  split_ifs with h1 h2 <;> simp [*]

lemma classify_eq_closed_iff (avgDist : ℚ) :
    classify avgDist = Signal.CLOSED ↔
      avgDist < CLOSE_THRESHOLD ∧ ¬ OPEN_THRESHOLD < avgDist := by
  unfold classify
  split_ifs with h1 h2 <;> simp [*]

lemma classify_eq_unknown_iff (avgDist : ℚ) :
    classify avgDist = Signal.UNKNOWN ↔
      CLOSE_THRESHOLD ≤ avgDist ∧ avgDist ≤ OPEN_THRESHOLD := by
  unfold classify
  split_ifs with h1 h2
  · simp only [reduceCtorEq, false_iff]
    intro h
    exact absurd h1 (not_lt.mpr h.2)
  · simp only [reduceCtorEq, false_iff]
    intro h
    exact absurd h2 (not_lt.mpr h.1)
  · simp only [true_iff]
    exact ⟨not_lt.mp h2, not_lt.mp h1⟩

lemma stepFrame_noHand (m : GestureMachine) (now : Nat) :
    stepFrame m (FrameInput.noHand now) = { m with openHandStartTime := 0 } :=
  rfl

lemma stepFrame_open_unset (m : GestureMachine) (avgDist : ℚ) (now : Nat)
    (hμ : OPEN_THRESHOLD < avgDist) (ht : m.openHandStartTime = 0) :
    stepFrame m (FrameInput.hand avgDist now) =
      { appState := AppState.SCATTERED, openHandStartTime := now } := by
  simp [stepFrame, hμ, ht]

lemma stepFrame_open_past (m : GestureMachine) (avgDist : ℚ) (now : Nat)
    (hμ : OPEN_THRESHOLD < avgDist) (ht : m.openHandStartTime ≠ 0)
    (hd : 5000 < now - m.openHandStartTime) :
    stepFrame m (FrameInput.hand avgDist now) =
      { m with appState := AppState.TEXT_SHAPE } := by
  simp [stepFrame, hμ, ht, hd]

lemma stepFrame_open_within (m : GestureMachine) (avgDist : ℚ) (now : Nat)
    (hμ : OPEN_THRESHOLD < avgDist) (ht : m.openHandStartTime ≠ 0)
    (hd : ¬ 5000 < now - m.openHandStartTime) :
    stepFrame m (FrameInput.hand avgDist now) =
      { m with appState :=
          if m.appState = AppState.TEXT_SHAPE then AppState.TEXT_SHAPE
          else AppState.SCATTERED } := by
  simp [stepFrame, hμ, ht, hd]

lemma stepFrame_closed (m : GestureMachine) (avgDist : ℚ) (now : Nat)
    (hμ : avgDist < CLOSE_THRESHOLD) :
    stepFrame m (FrameInput.hand avgDist now) =
      { appState := AppState.TREE_SHAPE, openHandStartTime := 0 } := by
  have hno : ¬ OPEN_THRESHOLD < avgDist := by
    rw [not_lt]
    calc avgDist ≤ CLOSE_THRESHOLD := le_of_lt hμ
    _ ≤ OPEN_THRESHOLD := by norm_num [CLOSE_THRESHOLD, OPEN_THRESHOLD]
  simp [stepFrame, hno, hμ]

lemma stepFrame_deadband (m : GestureMachine) (avgDist : ℚ) (now : Nat)
    (h1 : ¬ OPEN_THRESHOLD < avgDist) (h2 : ¬ avgDist < CLOSE_THRESHOLD) :
    stepFrame m (FrameInput.hand avgDist now) = m := by
  simp [stepFrame, h1, h2]

/-! ## Claim C5 — classifier hysteresis -/

/-- Claim C5 (confirmed): the classifier's signal is OPEN exactly when the
openness metric exceeds the 0.35 threshold, CLOSED exactly when it is below
the 0.25 threshold, and UNKNOWN exactly when the metric lies in the dead band
between the two thresholds; a frame with no hand is likewise UNKNOWN.  In
particular a metric of 0.30 is UNKNOWN, so its frame leaves the machine — and
hence the implicitly held classification — completely unchanged, while
metrics 0.40 then 0.20 yield OPEN then CLOSED. -/
theorem C5_classifier_hysteresis (avgDist : ℚ) (t : Nat) (m : GestureMachine) :
    OPEN_THRESHOLD = 35 / 100 ∧
    CLOSE_THRESHOLD = 25 / 100 ∧
    (classify avgDist = Signal.OPEN ↔ OPEN_THRESHOLD < avgDist) ∧
    (classify avgDist = Signal.CLOSED ↔
      avgDist < CLOSE_THRESHOLD ∧ ¬ OPEN_THRESHOLD < avgDist) ∧
    (classify avgDist = Signal.UNKNOWN ↔
      CLOSE_THRESHOLD ≤ avgDist ∧ avgDist ≤ OPEN_THRESHOLD) ∧
    inputSignal (FrameInput.noHand t) = Signal.UNKNOWN ∧
    classify (30 / 100) = Signal.UNKNOWN ∧
    stepFrame m (FrameInput.hand (30 / 100) t) = m ∧
    classify (40 / 100) = Signal.OPEN ∧
    classify (20 / 100) = Signal.CLOSED := by
  refine ⟨rfl, rfl, classify_eq_open_iff avgDist, classify_eq_closed_iff avgDist,
    classify_eq_unknown_iff avgDist, rfl, ?_, ?_, ?_, ?_⟩
  · rw [classify_eq_unknown_iff]
    norm_num [OPEN_THRESHOLD, CLOSE_THRESHOLD]
  · apply stepFrame_deadband <;> norm_num [OPEN_THRESHOLD, CLOSE_THRESHOLD]
  · rw [classify_eq_open_iff]
    norm_num [OPEN_THRESHOLD]
  · rw [classify_eq_closed_iff]
    norm_num [OPEN_THRESHOLD, CLOSE_THRESHOLD]

/-! ## Claim C4 — UNKNOWN frames -/

/-- Claim C4 (corrected), counterexample: from the reachable machine state
⟨SCATTERED, timer = 100⟩ (one OPEN frame at time 100 from startup), a
dead-band frame (metric 0.30, classified UNKNOWN) leaves the dwell timer set
at 100 — it is not reset to unset as the claim states. -/
theorem C4_counterexample :
    runFrames initialMachine [FrameInput.hand (2 / 5) 100] =
      { appState := AppState.SCATTERED, openHandStartTime := 100 } ∧
    inputSignal (FrameInput.hand (3 / 10) 200) = Signal.UNKNOWN ∧
    stepFrame { appState := AppState.SCATTERED, openHandStartTime := 100 }
        (FrameInput.hand (3 / 10) 200) =
      { appState := AppState.SCATTERED, openHandStartTime := 100 } ∧
    (stepFrame { appState := AppState.SCATTERED, openHandStartTime := 100 }
        (FrameInput.hand (3 / 10) 200)).openHandStartTime ≠ 0 := by
  refine ⟨?_, ?_, ?_, ?_⟩
  · show stepFrame initialMachine (FrameInput.hand (2 / 5) 100) = _
    apply stepFrame_open_unset
    · norm_num [OPEN_THRESHOLD]
    · rfl
  · show classify (3 / 10) = Signal.UNKNOWN
    rw [classify_eq_unknown_iff]
    norm_num [OPEN_THRESHOLD, CLOSE_THRESHOLD]
  · apply stepFrame_deadband <;> norm_num [OPEN_THRESHOLD, CLOSE_THRESHOLD]
  · rw [stepFrame_deadband] <;> norm_num [OPEN_THRESHOLD, CLOSE_THRESHOLD]

/-- Claim C4 (corrected), amended: on every frame classified UNKNOWN the
application state is unchanged, but the dwell timer is reset to unset only on
a no-hand frame; on a dead-band frame (hand present, metric between the
thresholds) the machine — dwell timer included — is left completely
unchanged. -/
theorem C4_unknown_frames (m : GestureMachine) (t : Nat) (avgDist : ℚ)
    (hμ : classify avgDist = Signal.UNKNOWN) :
    stepFrame m (FrameInput.noHand t) = { m with openHandStartTime := 0 } ∧
    (stepFrame m (FrameInput.noHand t)).appState = m.appState ∧
    stepFrame m (FrameInput.hand avgDist t) = m := by
  rw [classify_eq_unknown_iff] at hμ
  refine ⟨rfl, rfl, ?_⟩
  exact stepFrame_deadband m avgDist t (not_lt.mpr hμ.2) (not_lt.mpr hμ.1)

/-- Witness for C4: the amended theorem applied at the machine state
⟨SCATTERED, 100⟩, time 300 and dead-band metric 0.30. -/
theorem C4_witness :
    stepFrame { appState := AppState.SCATTERED, openHandStartTime := 100 }
        (FrameInput.noHand 300) =
      { appState := AppState.SCATTERED, openHandStartTime := 0 } ∧
    (stepFrame { appState := AppState.SCATTERED, openHandStartTime := 100 }
        (FrameInput.noHand 300)).appState = AppState.SCATTERED ∧
    stepFrame { appState := AppState.SCATTERED, openHandStartTime := 100 }
        (FrameInput.hand (3 / 10) 300) =
      { appState := AppState.SCATTERED, openHandStartTime := 100 } :=
  C4_unknown_frames
    { appState := AppState.SCATTERED, openHandStartTime := 100 } 300 (3 / 10)
    (by rw [classify_eq_unknown_iff]; norm_num [OPEN_THRESHOLD, CLOSE_THRESHOLD])

/-! ## Claim C6 — short landmark lists -/

/-- Claim C6 (code_bug): the claim — and spec section 7 — require a landmark
list with fewer than 21 points to be treated as UNKNOWN, but the source
dereferences `landmarks[0]` and `landmarks[8/12/16/20]` with no length guard,
so on any such list the frame handler throws (modelled as `Except.error`)
instead of acting as an UNKNOWN frame; in particular a one-point list throws
before any machine update. -/
theorem C6_short_landmarks :
    (∀ landmarks : List Vec3, landmarks.length < 21 →
      gatherLandmarks landmarks = Except.error ()) ∧
    (∀ (m : GestureMachine) (landmarks : List Vec3) (avgDist : ℚ) (now : Nat),
      landmarks.length < 21 →
      handFrameOutcome m landmarks avgDist now = Except.error ()) ∧
    handFrameOutcome initialMachine [⟨0, 0, 0⟩] (3 / 10) 1000 =
      Except.error () := by
  have key : ∀ landmarks : List Vec3, landmarks.length < 21 →
      gatherLandmarks landmarks = Except.error () := by
    intro landmarks hlen
    have h20 : landmarks.get? 20 = none := by
      rw [List.get?_eq_none]
      omega
    unfold gatherLandmarks
    rw [h20]
    cases landmarks.get? 0 <;> cases landmarks.get? 8 <;>
      cases landmarks.get? 12 <;> cases landmarks.get? 16 <;> rfl
  refine ⟨key, ?_, rfl⟩
  intro m landmarks avgDist now hlen
  unfold handFrameOutcome
  rw [key landmarks hlen]

/-- Witness for C6: the short-list branch applied at the empty landmark
list. -/
theorem C6_witness : gatherLandmarks ([] : List Vec3) = Except.error () :=
  C6_short_landmarks.1 [] (by norm_num)

/-! ## Claim C9 — target selection and interpolation speed -/

/-- Claim C9 (confirmed): the interpolation target is `treePosition` in
TREE_SHAPE state, `textPosition` in TEXT_SHAPE state and `scatterPosition`
for SCATTERED (and, vacuously, any state that is neither TREE_SHAPE nor
TEXT_SHAPE), and the interpolation speed is 2.0 in TEXT_SHAPE state and 2.5
otherwise. -/
theorem C9_target_and_speed (p : ParticleData) (s : AppState)
    (hs : s ≠ AppState.TEXT_SHAPE) :
    targetOf AppState.TREE_SHAPE p = p.treePosition ∧
    targetOf AppState.TEXT_SHAPE p = p.textPosition ∧
    targetOf AppState.SCATTERED p = p.scatterPosition ∧
    (s ≠ AppState.TREE_SHAPE → targetOf s p = p.scatterPosition) ∧
    lerpSpeed AppState.TEXT_SHAPE = 2 ∧
    lerpSpeed s = 5 / 2 := by
  refine ⟨rfl, rfl, rfl, ?_, rfl, ?_⟩
  · intro ht
    simp [targetOf, ht, hs]
  · simp [lerpSpeed, hs]

/-- Witness for C9: the theorem applied to a concrete particle in the
SCATTERED state. -/
theorem C9_witness :
    targetOf AppState.TREE_SHAPE
        ⟨7, ⟨1, 2, 3⟩, ⟨4, 5, 6⟩, ⟨7, 8, 9⟩, ⟨1, 2, 3⟩, ⟨1, 1, 1⟩, 1 / 10,
          ⟨0, 0, 0⟩, ParticleType.needle⟩ = ⟨4, 5, 6⟩ ∧
    targetOf AppState.TEXT_SHAPE
        ⟨7, ⟨1, 2, 3⟩, ⟨4, 5, 6⟩, ⟨7, 8, 9⟩, ⟨1, 2, 3⟩, ⟨1, 1, 1⟩, 1 / 10,
          ⟨0, 0, 0⟩, ParticleType.needle⟩ = ⟨7, 8, 9⟩ ∧
    targetOf AppState.SCATTERED
        ⟨7, ⟨1, 2, 3⟩, ⟨4, 5, 6⟩, ⟨7, 8, 9⟩, ⟨1, 2, 3⟩, ⟨1, 1, 1⟩, 1 / 10,
          ⟨0, 0, 0⟩, ParticleType.needle⟩ = ⟨1, 2, 3⟩ ∧
    (AppState.SCATTERED ≠ AppState.TREE_SHAPE →
      targetOf AppState.SCATTERED
          ⟨7, ⟨1, 2, 3⟩, ⟨4, 5, 6⟩, ⟨7, 8, 9⟩, ⟨1, 2, 3⟩, ⟨1, 1, 1⟩, 1 / 10,
            ⟨0, 0, 0⟩, ParticleType.needle⟩ = ⟨1, 2, 3⟩) ∧
    lerpSpeed AppState.TEXT_SHAPE = 2 ∧
    lerpSpeed AppState.SCATTERED = 5 / 2 :=
  C9_target_and_speed
    ⟨7, ⟨1, 2, 3⟩, ⟨4, 5, 6⟩, ⟨7, 8, 9⟩, ⟨1, 2, 3⟩, ⟨1, 1, 1⟩, 1 / 10,
      ⟨0, 0, 0⟩, ParticleType.needle⟩ AppState.SCATTERED (by decide)

/-! ## Claim C8 — the per-frame update mutates only currentPosition -/

/-- Claim C8 (confirmed): one per-frame engine update leaves every particle
field except `currentPosition` unchanged, sets `currentPosition` to the pure
interpolation result, and that result is independent of the pointer: the
repulsion push lives only in the returned rendered position, never in the
stored particle, so it cannot accumulate across frames. -/
theorem C8_only_currentPosition_mutates (s : AppState) (hit : Option Vec3)
    (delta dist : ℚ) (p : ParticleData) :
    (updateParticle s hit delta dist p).1.currentPosition =
      lerpVec p.currentPosition (targetOf s p) (delta * lerpSpeed s) ∧
    (updateParticle s hit delta dist p).1.id = p.id ∧
    (updateParticle s hit delta dist p).1.scatterPosition = p.scatterPosition ∧
    (updateParticle s hit delta dist p).1.treePosition = p.treePosition ∧
    (updateParticle s hit delta dist p).1.textPosition = p.textPosition ∧
    (updateParticle s hit delta dist p).1.color = p.color ∧
    (updateParticle s hit delta dist p).1.scale = p.scale ∧
    (updateParticle s hit delta dist p).1.rotationSpeed = p.rotationSpeed ∧
    (updateParticle s hit delta dist p).1.type = p.type ∧
    (updateParticle s hit delta dist p).1 = (updateParticle s none delta 0 p).1 :=
  ⟨rfl, rfl, rfl, rfl, rfl, rfl, rfl, rfl, rfl, rfl⟩

/-! ## Claim C10 — scale ranges by category -/

/-- Claim C10 (confirmed): with every `Math.random()` draw in `[0, 1)`, an
ornament's base scale lies in `[0.1, 0.25)` and a needle's in `[0.02, 0.10)`;
consequently every ornament (decoration) scale is strictly greater than every
needle (filler) scale. -/
theorem C10_scale_ranges (r r1 r2 : ℚ)
    (h0 : 0 ≤ r) (h1 : r < 1) (h10 : 0 ≤ r1) (h11 : r1 < 1)
    (h20 : 0 ≤ r2) (h21 : r2 < 1) :
    (typeFor true = ParticleType.ornament ∧
      1 / 10 ≤ scaleFor true r ∧ scaleFor true r < 25 / 100) ∧
    (typeFor false = ParticleType.needle ∧
      2 / 100 ≤ scaleFor false r ∧ scaleFor false r < 1 / 10) ∧
    scaleFor false r1 < scaleFor true r2 := by
  refine ⟨⟨rfl, ?_, ?_⟩, ⟨rfl, ?_, ?_⟩, ?_⟩ <;>
    simp only [scaleFor, if_true, if_false, Bool.false_eq_true] <;> nlinarith

/-- Witness for C10: the theorem applied at the draws 1/2, 0 and 999/1000. -/
theorem C10_witness :
    (typeFor true = ParticleType.ornament ∧
      1 / 10 ≤ scaleFor true (1 / 2) ∧ scaleFor true (1 / 2) < 25 / 100) ∧
    (typeFor false = ParticleType.needle ∧
      2 / 100 ≤ scaleFor false (1 / 2) ∧ scaleFor false (1 / 2) < 1 / 10) ∧
    scaleFor false 0 < scaleFor true (999 / 1000) :=
  C10_scale_ranges (1 / 2) 0 (999 / 1000) (by norm_num) (by norm_num)
    (by norm_num) (by norm_num) (by norm_num) (by norm_num)

/-! ## Claim C2 — the dwell gate -/

lemma runFrames_cons (m : GestureMachine) (f : FrameInput) (fs : List FrameInput) :
    runFrames m (f :: fs) = runFrames (stepFrame m f) fs :=
  rfl

lemma runFrames_open_within (avgDist : ℚ) (t0 : Nat)
    (hμ : OPEN_THRESHOLD < avgDist) (ht0 : t0 ≠ 0) :
    ∀ ts : List Nat, (∀ u ∈ ts, u - t0 ≤ 4999) →
      runFrames { appState := AppState.SCATTERED, openHandStartTime := t0 }
          (ts.map (FrameInput.hand avgDist)) =
        { appState := AppState.SCATTERED, openHandStartTime := t0 }
  | [], _ => rfl
  | u :: ts, h => by
    rw [List.map_cons, runFrames_cons,
      stepFrame_open_within _ _ _ hμ ht0
        (by have := h u (by simp); show ¬ 5000 < u - t0; omega)]
    exact runFrames_open_within avgDist t0 hμ ht0 ts
      (fun v hv => h v (List.mem_cons_of_mem u hv))

/-- Claim C2 (confirmed): starting from any machine with the dwell timer
unset, the first OPEN frame (at a positive timestamp `t0`) starts the timer
and forces SCATTERED; any sequence of further OPEN frames within 4999 ms of
`t0` leaves the machine at ⟨SCATTERED, t0⟩; an OPEN frame whose elapsed dwell
exceeds 5000 ms moves it to TEXT_SHAPE with the timer still running; every
subsequent OPEN frame keeps it at TEXT_SHAPE; and a single CLOSED frame then
yields TREE_SHAPE with the timer reset to unset. -/
theorem C2_dwell_gate (m : GestureMachine) (avgDist avgDistC : ℚ)
    (t0 : Nat) (ts : List Nat) (t t' t'' : Nat)
    (hμ : classify avgDist = Signal.OPEN)
    (hμc : classify avgDistC = Signal.CLOSED)
    (hm : m.openHandStartTime = 0) (ht0 : 0 < t0)
    (hts : ∀ u ∈ ts, u - t0 ≤ 4999) (ht : 5000 < t - t0) :
    stepFrame m (FrameInput.hand avgDist t0) =
      { appState := AppState.SCATTERED, openHandStartTime := t0 } ∧
    runFrames { appState := AppState.SCATTERED, openHandStartTime := t0 }
        (ts.map (FrameInput.hand avgDist)) =
      { appState := AppState.SCATTERED, openHandStartTime := t0 } ∧
    stepFrame { appState := AppState.SCATTERED, openHandStartTime := t0 }
        (FrameInput.hand avgDist t) =
      { appState := AppState.TEXT_SHAPE, openHandStartTime := t0 } ∧
    stepFrame { appState := AppState.TEXT_SHAPE, openHandStartTime := t0 }
        (FrameInput.hand avgDist t') =
      { appState := AppState.TEXT_SHAPE, openHandStartTime := t0 } ∧
    stepFrame { appState := AppState.TEXT_SHAPE, openHandStartTime := t0 }
        (FrameInput.hand avgDistC t'') =
      { appState := AppState.TREE_SHAPE, openHandStartTime := 0 } := by
  rw [classify_eq_open_iff] at hμ
  rw [classify_eq_closed_iff] at hμc
  have ht0' : t0 ≠ 0 := Nat.pos_iff_ne_zero.mp ht0
  refine ⟨stepFrame_open_unset m avgDist t0 hμ hm,
    runFrames_open_within avgDist t0 hμ ht0' ts hts,
    stepFrame_open_past _ avgDist t hμ ht0' ht, ?_,
    stepFrame_closed _ avgDistC t'' hμc.1⟩
  by_cases hd : 5000 < t' - t0
  · exact stepFrame_open_past _ avgDist t' hμ ht0' hd
  · rw [stepFrame_open_within _ avgDist t' hμ ht0' hd]
    rfl

/-- Witness for C2: the dwell gate exercised from startup with metric 0.40 at
times 100, then 2000 and 5099 (within 4999 ms), then 5200 (past 5000 ms),
then 6000, and finally a CLOSED frame with metric 0.20 at 6100. -/
theorem C2_witness :
    stepFrame initialMachine (FrameInput.hand (40 / 100) 100) =
      { appState := AppState.SCATTERED, openHandStartTime := 100 } ∧
    runFrames { appState := AppState.SCATTERED, openHandStartTime := 100 }
        ([2000, 5099].map (FrameInput.hand (40 / 100))) =
      { appState := AppState.SCATTERED, openHandStartTime := 100 } ∧
    stepFrame { appState := AppState.SCATTERED, openHandStartTime := 100 }
        (FrameInput.hand (40 / 100) 5200) =
      { appState := AppState.TEXT_SHAPE, openHandStartTime := 100 } ∧
    stepFrame { appState := AppState.TEXT_SHAPE, openHandStartTime := 100 }
        (FrameInput.hand (40 / 100) 6000) =
      { appState := AppState.TEXT_SHAPE, openHandStartTime := 100 } ∧
    stepFrame { appState := AppState.TEXT_SHAPE, openHandStartTime := 100 }
        (FrameInput.hand (20 / 100) 6100) =
      { appState := AppState.TREE_SHAPE, openHandStartTime := 0 } :=
  C2_dwell_gate initialMachine (40 / 100) (20 / 100) 100 [2000, 5099]
    5200 6000 6100
    (by rw [classify_eq_open_iff]; norm_num [OPEN_THRESHOLD])
    (by rw [classify_eq_closed_iff];
        norm_num [OPEN_THRESHOLD, CLOSE_THRESHOLD])
    rfl (by norm_num) (by decide) (by norm_num)

/-! ## Claim C3 — how TEXT_SHAPE can be left -/

/-- Claim C3 (corrected), counterexample: from startup, OPEN frames at 500
and 6000 reach TEXT_SHAPE; a no-hand frame at 6100 (classified UNKNOWN, not
CLOSED) resets the dwell timer while holding TEXT_SHAPE, and the next OPEN
frame at 6200 — also not CLOSED — then forces SCATTERED: the state left
TEXT_SHAPE with no CLOSED classification anywhere in the sequence. -/
theorem C3_counterexample :
    runFrames initialMachine
        [FrameInput.hand (2 / 5) 500, FrameInput.hand (2 / 5) 6000] =
      { appState := AppState.TEXT_SHAPE, openHandStartTime := 500 } ∧
    inputSignal (FrameInput.noHand 6100) = Signal.UNKNOWN ∧
    inputSignal (FrameInput.hand (2 / 5) 6200) = Signal.OPEN ∧
    (runFrames initialMachine
        [FrameInput.hand (2 / 5) 500, FrameInput.hand (2 / 5) 6000,
         FrameInput.noHand 6100, FrameInput.hand (2 / 5) 6200]).appState =
      AppState.SCATTERED := by
  have hμ : OPEN_THRESHOLD < (2 / 5 : ℚ) := by norm_num [OPEN_THRESHOLD]
  have s1 : stepFrame initialMachine (FrameInput.hand (2 / 5) 500) =
      { appState := AppState.SCATTERED, openHandStartTime := 500 } :=
    stepFrame_open_unset _ _ _ hμ rfl
  have s2 : stepFrame { appState := AppState.SCATTERED, openHandStartTime := 500 }
      (FrameInput.hand (2 / 5) 6000) =
      { appState := AppState.TEXT_SHAPE, openHandStartTime := 500 } :=
    stepFrame_open_past _ _ _ hμ (by norm_num) (by norm_num)
  refine ⟨?_, rfl, ?_, ?_⟩
  · rw [runFrames_cons, s1, runFrames_cons, s2]
    rfl
  · rw [show inputSignal (FrameInput.hand (2 / 5) 6200) = classify (2 / 5) from rfl,
      classify_eq_open_iff]
    exact hμ
  · rw [runFrames_cons, s1, runFrames_cons, s2, runFrames_cons,
      stepFrame_noHand]
    show (stepFrame { appState := AppState.TEXT_SHAPE, openHandStartTime := 0 }
      (FrameInput.hand (2 / 5) 6200)).appState = AppState.SCATTERED
    rw [stepFrame_open_unset _ _ _ hμ rfl]

/-- Claim C3 (corrected), amended: a machine in TEXT_SHAPE leaves TEXT_SHAPE
exactly on a CLOSED frame or on an OPEN frame that arrives while the dwell
timer is unset (which happens after a no-hand frame, which resets the timer
while holding the state); in particular no sequence of dead-band frames, and
no OPEN frame with the timer still set, ever moves the state out of
TEXT_SHAPE. -/
theorem C3_text_exit_characterization (m : GestureMachine) (f : FrameInput)
    (hm : m.appState = AppState.TEXT_SHAPE) :
    (stepFrame m f).appState ≠ AppState.TEXT_SHAPE ↔
      inputSignal f = Signal.CLOSED ∨
        (inputSignal f = Signal.OPEN ∧ m.openHandStartTime = 0) := by
  cases f with
  | noHand t =>
    rw [stepFrame_noHand]
    simp [hm, inputSignal]
  | hand avgDist t =>
    rw [show inputSignal (FrameInput.hand avgDist t) = classify avgDist from rfl,
      classify_eq_open_iff, classify_eq_closed_iff]
    by_cases hopen : OPEN_THRESHOLD < avgDist
    · by_cases ht : m.openHandStartTime = 0
      · rw [stepFrame_open_unset m avgDist t hopen ht]
        simp [hopen, ht]
      · by_cases hd : 5000 < t - m.openHandStartTime
        · rw [stepFrame_open_past m avgDist t hopen ht hd]
          simp [hopen, ht]
        · rw [stepFrame_open_within m avgDist t hopen ht hd]
          simp [hopen, ht, hm]
    · by_cases hclosed : avgDist < CLOSE_THRESHOLD
      · rw [stepFrame_closed m avgDist t hclosed]
        simp [hopen, hclosed]
      · rw [stepFrame_deadband m avgDist t hopen hclosed]
        simp [hm, hopen, hclosed]

/-- Witness for C3: the amended characterization applied at the machine
⟨TEXT_SHAPE, 600⟩ and a dead-band frame with metric 0.30: the state stays
TEXT_SHAPE. -/
theorem C3_witness :
    (stepFrame { appState := AppState.TEXT_SHAPE, openHandStartTime := 600 }
        (FrameInput.hand (3 / 10) 700)).appState ≠ AppState.TEXT_SHAPE ↔
      inputSignal (FrameInput.hand (3 / 10) 700) = Signal.CLOSED ∨
        (inputSignal (FrameInput.hand (3 / 10) 700) = Signal.OPEN ∧
          ({ appState := AppState.TEXT_SHAPE, openHandStartTime := 600 } :
            GestureMachine).openHandStartTime = 0) :=
  C3_text_exit_characterization
    { appState := AppState.TEXT_SHAPE, openHandStartTime := 600 }
    (FrameInput.hand (3 / 10) 700) rfl

/-! ## Claim C7 — pointer repulsion -/

lemma applyRepulsion_push (cur mouse3D : Vec3) (dist : ℚ)
    (h1 : 1 / 100 < dist) (h8 : dist < 8) :
    applyRepulsion cur mouse3D dist =
      { x := cur.x + (cur.x - mouse3D.x) / dist * (5 * ((8 - dist) / 8))
        y := cur.y + (cur.y - mouse3D.y) / dist * (5 * ((8 - dist) / 8))
        z := cur.z + (cur.z - mouse3D.z) / dist * (5 * ((8 - dist) / 8)) } := by
  simp only [applyRepulsion, if_pos h8, if_pos h1]

lemma applyRepulsion_magnitude (cur mouse3D : Vec3) (dist : ℚ)
    (hd2 : dist * dist = dist2 cur mouse3D)
    (h1 : 1 / 100 < dist) (h8 : dist < 8) :
    dist2 (applyRepulsion cur mouse3D dist) cur = (5 * ((8 - dist) / 8)) ^ 2 := by
  have hne : dist ≠ 0 := ne_of_gt (lt_trans (by norm_num) h1)
  have hdd : dist * dist ≠ 0 := mul_ne_zero hne hne
  rw [applyRepulsion_push cur mouse3D dist h1 h8]
  simp only [dist2] at hd2 ⊢
  calc (cur.x + (cur.x - mouse3D.x) / dist * (5 * ((8 - dist) / 8)) - cur.x) ^ 2 +
        (cur.y + (cur.y - mouse3D.y) / dist * (5 * ((8 - dist) / 8)) - cur.y) ^ 2 +
        (cur.z + (cur.z - mouse3D.z) / dist * (5 * ((8 - dist) / 8)) - cur.z) ^ 2
      = (5 * ((8 - dist) / 8)) ^ 2 / (dist * dist) *
          ((cur.x - mouse3D.x) ^ 2 + (cur.y - mouse3D.y) ^ 2 +
            (cur.z - mouse3D.z) ^ 2) := by
        field_simp
        ring
    _ = (5 * ((8 - dist) / 8)) ^ 2 / (dist * dist) * (dist * dist) := by
        rw [← hd2]
    _ = (5 * ((8 - dist) / 8)) ^ 2 := div_mul_cancel₀ _ hdd

/-- Claim C7 (confirmed): the repulsion push is applied only when the state
is SCATTERED or TEXT_SHAPE and the pointer ray hit the interaction plane this
frame; when applied at particle-to-pointer distance `dist` with
`0.01 < dist < 8`, it offsets the rendered position along the normalized
separation vector by exactly `5 × (8 − dist)/8` units (squared offset length
`(5 × (8 − dist)/8)²`); at `dist = 8` the push is zero, at `dist = 4` its
magnitude is 2.5, and at `dist < 0.01` repulsion is skipped entirely. -/
theorem C7_repulsion (s : AppState) (cur mouse3D : Vec3) (dist : ℚ)
    (hd2 : dist * dist = dist2 cur mouse3D) (hd0 : 0 ≤ dist) :
    (isInteractionActive s = true ↔
      s = AppState.SCATTERED ∨ s = AppState.TEXT_SHAPE) ∧
    renderBasePos s none cur dist = cur ∧
    (isInteractionActive s = false →
      renderBasePos s (some mouse3D) cur dist = cur) ∧
    (isInteractionActive s = true →
      renderBasePos s (some mouse3D) cur dist = applyRepulsion cur mouse3D dist) ∧
    (1 / 100 < dist → dist < 8 →
      applyRepulsion cur mouse3D dist =
        { x := cur.x + (cur.x - mouse3D.x) / dist * (5 * ((8 - dist) / 8))
          y := cur.y + (cur.y - mouse3D.y) / dist * (5 * ((8 - dist) / 8))
          z := cur.z + (cur.z - mouse3D.z) / dist * (5 * ((8 - dist) / 8)) } ∧
      dist2 (applyRepulsion cur mouse3D dist) cur = (5 * ((8 - dist) / 8)) ^ 2) ∧
    (8 ≤ dist → applyRepulsion cur mouse3D dist = cur) ∧
    (dist < 1 / 100 → applyRepulsion cur mouse3D dist = cur) ∧
    applyRepulsion ⟨8, 0, 0⟩ ⟨0, 0, 0⟩ 8 = ⟨8, 0, 0⟩ ∧
    applyRepulsion ⟨4, 0, 0⟩ ⟨0, 0, 0⟩ 4 = ⟨13 / 2, 0, 0⟩ ∧
    dist2 (applyRepulsion ⟨4, 0, 0⟩ ⟨0, 0, 0⟩ 4) ⟨4, 0, 0⟩ = (5 / 2) ^ 2 := by
  refine ⟨?_, rfl, ?_, ?_, ?_, ?_, ?_, ?_, ?_, ?_⟩
  · simp [isInteractionActive]
  · intro h
    simp [renderBasePos, h]
  · intro h
    simp [renderBasePos, h]
  · intro h1 h8
    exact ⟨applyRepulsion_push cur mouse3D dist h1 h8,
      applyRepulsion_magnitude cur mouse3D dist hd2 h1 h8⟩
  · intro h8
    simp [applyRepulsion, not_lt.mpr h8]
  · intro hsmall
    have hno : ¬ 1 / 100 < dist := by linarith
    have h8 : dist < 8 := by linarith
    simp only [applyRepulsion, if_pos h8, if_neg hno]
  · norm_num [applyRepulsion]
  · rw [applyRepulsion_push ⟨4, 0, 0⟩ ⟨0, 0, 0⟩ 4 (by norm_num) (by norm_num)]
    norm_num
  · rw [applyRepulsion_magnitude ⟨4, 0, 0⟩ ⟨0, 0, 0⟩ 4 (by norm_num [dist2])
      (by norm_num) (by norm_num)]
    norm_num

/-- Witness for C7: the theorem applied in the SCATTERED state to a particle
at (4,0,0) with the pointer at the origin, distance 4 (a perfect square root
of the squared distance 16). -/
theorem C7_witness :
    (isInteractionActive AppState.SCATTERED = true ↔
      AppState.SCATTERED = AppState.SCATTERED ∨
        AppState.SCATTERED = AppState.TEXT_SHAPE) ∧
    renderBasePos AppState.SCATTERED none ⟨4, 0, 0⟩ 4 = ⟨4, 0, 0⟩ ∧
    (isInteractionActive AppState.SCATTERED = false →
      renderBasePos AppState.SCATTERED (some ⟨0, 0, 0⟩) ⟨4, 0, 0⟩ 4 = ⟨4, 0, 0⟩) ∧
    (isInteractionActive AppState.SCATTERED = true →
      renderBasePos AppState.SCATTERED (some ⟨0, 0, 0⟩) ⟨4, 0, 0⟩ 4 =
        applyRepulsion ⟨4, 0, 0⟩ ⟨0, 0, 0⟩ 4) ∧
    (1 / 100 < (4 : ℚ) → (4 : ℚ) < 8 →
      applyRepulsion ⟨4, 0, 0⟩ ⟨0, 0, 0⟩ 4 =
        { x := (4 : ℚ) + ((4 : ℚ) - 0) / 4 * (5 * ((8 - 4) / 8))
          y := (0 : ℚ) + ((0 : ℚ) - 0) / 4 * (5 * ((8 - 4) / 8))
          z := (0 : ℚ) + ((0 : ℚ) - 0) / 4 * (5 * ((8 - 4) / 8)) } ∧
      dist2 (applyRepulsion ⟨4, 0, 0⟩ ⟨0, 0, 0⟩ 4) ⟨4, 0, 0⟩ =
        (5 * ((8 - (4 : ℚ)) / 8)) ^ 2) ∧
    ((8 : ℚ) ≤ 4 → applyRepulsion ⟨4, 0, 0⟩ ⟨0, 0, 0⟩ 4 = ⟨4, 0, 0⟩) ∧
    ((4 : ℚ) < 1 / 100 → applyRepulsion ⟨4, 0, 0⟩ ⟨0, 0, 0⟩ 4 = ⟨4, 0, 0⟩) ∧
    applyRepulsion ⟨8, 0, 0⟩ ⟨0, 0, 0⟩ 8 = ⟨8, 0, 0⟩ ∧
    applyRepulsion ⟨4, 0, 0⟩ ⟨0, 0, 0⟩ 4 = ⟨13 / 2, 0, 0⟩ ∧
    dist2 (applyRepulsion ⟨4, 0, 0⟩ ⟨0, 0, 0⟩ 4) ⟨4, 0, 0⟩ = (5 / 2) ^ 2 :=
  C7_repulsion AppState.SCATTERED ⟨4, 0, 0⟩ ⟨0, 0, 0⟩ 4
    (by norm_num [dist2]) (by norm_num)

/-! ## Claim C1 — interpolation convergence -/

lemma updateParticle_fst (s : AppState) (hit : Option Vec3) (delta dist : ℚ)
    (p : ParticleData) :
    (updateParticle s hit delta dist p).1 =
      { p with currentPosition :=
          lerpVec p.currentPosition (targetOf s p) (delta * lerpSpeed s) } :=
  rfl

lemma targetOf_set_current (s : AppState) (p : ParticleData) (v : Vec3) :
    targetOf s { p with currentPosition := v } = targetOf s p :=
  rfl

lemma iterUpdate_succ (s : AppState) (delta : ℚ) (n : Nat) (p : ParticleData) :
    iterUpdate s delta (n + 1) p =
      (updateParticle s none delta 0 (iterUpdate s delta n p)).1 := by
  induction n generalizing p with
  | zero => rfl
  | succ n ih =>
    show iterUpdate s delta (n + 1) (updateParticle s none delta 0 p).1 = _
    rw [ih]
    rfl

lemma iterUpdate_target (s : AppState) (delta : ℚ) (n : Nat) (p : ParticleData) :
    targetOf s (iterUpdate s delta n p) = targetOf s p := by
  induction n generalizing p with
  | zero => rfl
  | succ n ih =>
    show targetOf s (iterUpdate s delta n (updateParticle s none delta 0 p).1) = _
    rw [ih, updateParticle_fst, targetOf_set_current]

lemma dist2_lerpVec (v t : Vec3) (a : ℚ) :
    dist2 (lerpVec v t a) t = (1 - a) ^ 2 * dist2 v t := by
  simp only [dist2, lerpVec]
  ring

lemma dist2_nonneg (a b : Vec3) : 0 ≤ dist2 a b := by
  simp only [dist2]
  positivity

lemma dist2_eq_zero_iff (a b : Vec3) : dist2 a b = 0 ↔ a = b := by
  constructor
  · intro h
    simp only [dist2] at h
    have hx : a.x - b.x = 0 := by
      nlinarith [sq_nonneg (a.x - b.x), sq_nonneg (a.y - b.y), sq_nonneg (a.z - b.z)]
    have hy : a.y - b.y = 0 := by
      nlinarith [sq_nonneg (a.x - b.x), sq_nonneg (a.y - b.y), sq_nonneg (a.z - b.z)]
    have hz : a.z - b.z = 0 := by
      nlinarith [sq_nonneg (a.x - b.x), sq_nonneg (a.y - b.y), sq_nonneg (a.z - b.z)]
    cases a
    cases b
    simp only [Vec3.mk.injEq]
    exact ⟨by linarith [hx], by linarith [hy], by linarith [hz]⟩
  · rintro rfl
    simp only [dist2]
    ring

lemma dist2_iterUpdate (s : AppState) (delta : ℚ) (n : Nat) (p : ParticleData) :
    dist2 (iterUpdate s delta n p).currentPosition (targetOf s p) =
      ((1 - delta * lerpSpeed s) ^ 2) ^ n *
        dist2 p.currentPosition (targetOf s p) := by
  induction n with
  | zero =>
    show dist2 p.currentPosition (targetOf s p) = _
    ring_nf
  | succ n ih =>
    rw [iterUpdate_succ, updateParticle_fst]
    show dist2 (lerpVec (iterUpdate s delta n p).currentPosition
        (targetOf s (iterUpdate s delta n p)) (delta * lerpSpeed s))
        (targetOf s p) = _
    rw [iterUpdate_target, dist2_lerpVec, ih]
    ring

lemma lerp_coord_between (u w a : ℚ) (ha0 : 0 ≤ a) (ha1 : a ≤ 1) :
    min u w ≤ u + (w - u) * a ∧ u + (w - u) * a ≤ max u w := by
  rcases le_total u w with h | h
  · rw [min_eq_left h, max_eq_right h]
    constructor <;> nlinarith
  · rw [min_eq_right h, max_eq_left h]
    constructor <;> nlinarith

/-- Claim C1 (corrected), counterexample: in TREE_SHAPE state (speed 2.5,
matching the claim's scenario of a fixed target (1,0,0)) with deltaTime = 1,
the interpolation factor is `delta * lerpSpeed = 2.5`, which three.js's
unclamped lerp applies directly: one update from (0,0,0) toward (1,0,0) lands
at (2.5,0,0) — past the target — and the squared distance to the target
grows from 1 to 9/4, so the distance increases instead of strictly
decreasing. -/
theorem C1_counterexample :
    lerpSpeed AppState.TREE_SHAPE = 5 / 2 ∧
    (updateParticle AppState.TREE_SHAPE none 1 0
        ⟨0, ⟨0, 0, 0⟩, ⟨1, 0, 0⟩, ⟨0, 0, 0⟩, ⟨0, 0, 0⟩, ⟨1, 1, 1⟩, 1 / 10,
          ⟨0, 0, 0⟩, ParticleType.needle⟩).1.currentPosition =
      ⟨5 / 2, 0, 0⟩ ∧
    dist2 (⟨0, 0, 0⟩ : Vec3) ⟨1, 0, 0⟩ = 1 ∧
    dist2 (⟨5 / 2, 0, 0⟩ : Vec3) ⟨1, 0, 0⟩ = 9 / 4 ∧
    (1 : ℚ) < 9 / 4 ∧
    (1 : ℚ) < (5 / 2 : ℚ) := by
  refine ⟨rfl, ?_, by norm_num [dist2], by norm_num [dist2], by norm_num,
    by norm_num⟩
  rw [updateParticle_fst]
  show lerpVec ⟨0, 0, 0⟩ ⟨1, 0, 0⟩ (1 * lerpSpeed AppState.TREE_SHAPE) = _
  rw [show lerpSpeed AppState.TREE_SHAPE = 5 / 2 from rfl]
  norm_num [lerpVec]

/-- Claim C1 (corrected), amended: the per-frame update is an unclamped lerp
with factor `α = deltaTime × lerpSpeed(state)`.  Whenever `0 < α < 1`, each
update multiplies the squared distance to the (fixed) target by `(1 − α)²`,
so the distance strictly decreases on every frame at which the particle has
not yet reached the target, eventually falls below any positive bound, and
each coordinate stays between its previous value and the target's (no
overshoot).  For `α ≥ 1` — in particular deltaTime = 1 with speed 2.5 — none
of this is guaranteed, as the counterexample shows. -/
theorem C1_convergence (s : AppState) (delta : ℚ) (p : ParticleData)
    (n : Nat) (eps : ℚ)
    (h0 : 0 < delta * lerpSpeed s) (h1 : delta * lerpSpeed s < 1)
    (heps : 0 < eps) :
    (dist2 (iterUpdate s delta (n + 1) p).currentPosition (targetOf s p) =
      (1 - delta * lerpSpeed s) ^ 2 *
        dist2 (iterUpdate s delta n p).currentPosition (targetOf s p)) ∧
    ((iterUpdate s delta n p).currentPosition ≠ targetOf s p →
      dist2 (iterUpdate s delta (n + 1) p).currentPosition (targetOf s p) <
        dist2 (iterUpdate s delta n p).currentPosition (targetOf s p)) ∧
    (∃ N, dist2 (iterUpdate s delta N p).currentPosition (targetOf s p) < eps) ∧
    (min (iterUpdate s delta n p).currentPosition.x (targetOf s p).x ≤
        (iterUpdate s delta (n + 1) p).currentPosition.x ∧
      (iterUpdate s delta (n + 1) p).currentPosition.x ≤
        max (iterUpdate s delta n p).currentPosition.x (targetOf s p).x) ∧
    (min (iterUpdate s delta n p).currentPosition.y (targetOf s p).y ≤
        (iterUpdate s delta (n + 1) p).currentPosition.y ∧
      (iterUpdate s delta (n + 1) p).currentPosition.y ≤
        max (iterUpdate s delta n p).currentPosition.y (targetOf s p).y) ∧
    (min (iterUpdate s delta n p).currentPosition.z (targetOf s p).z ≤
        (iterUpdate s delta (n + 1) p).currentPosition.z ∧
      (iterUpdate s delta (n + 1) p).currentPosition.z ≤
        max (iterUpdate s delta n p).currentPosition.z (targetOf s p).z) := by
  set a := delta * lerpSpeed s with ha
  have hsq1 : (1 - a) ^ 2 < 1 := by nlinarith
  have hsq0 : 0 ≤ (1 - a) ^ 2 := sq_nonneg _
  have hstep : dist2 (iterUpdate s delta (n + 1) p).currentPosition
      (targetOf s p) = (1 - a) ^ 2 *
      dist2 (iterUpdate s delta n p).currentPosition (targetOf s p) := by
    rw [dist2_iterUpdate, dist2_iterUpdate]
    ring
  have hcoord : ∀ m : Nat,
      (iterUpdate s delta (m + 1) p).currentPosition =
        lerpVec (iterUpdate s delta m p).currentPosition (targetOf s p) a := by
    intro m
    rw [iterUpdate_succ, updateParticle_fst]
    show lerpVec (iterUpdate s delta m p).currentPosition
        (targetOf s (iterUpdate s delta m p)) a = _
    rw [iterUpdate_target]
  refine ⟨hstep, ?_, ?_, ?_, ?_, ?_⟩
  · intro hne
    have hpos : 0 < dist2 (iterUpdate s delta n p).currentPosition
        (targetOf s p) := by
      rcases lt_or_eq_of_le (dist2_nonneg
        (iterUpdate s delta n p).currentPosition (targetOf s p)) with h | h
      · exact h
      · exact absurd ((dist2_eq_zero_iff _ _).mp h.symm) hne
    calc dist2 (iterUpdate s delta (n + 1) p).currentPosition (targetOf s p)
        = (1 - a) ^ 2 *
          dist2 (iterUpdate s delta n p).currentPosition (targetOf s p) := hstep
      _ < 1 * dist2 (iterUpdate s delta n p).currentPosition (targetOf s p) :=
          (mul_lt_mul_of_pos_right hsq1 hpos)
      _ = dist2 (iterUpdate s delta n p).currentPosition (targetOf s p) :=
          one_mul _
  · rcases eq_or_lt_of_le (dist2_nonneg p.currentPosition (targetOf s p))
        with hD | hD
    · exact ⟨0, by rw [dist2_iterUpdate, ← hD]; simpa using heps⟩
    · obtain ⟨N, hN⟩ := exists_pow_lt_of_lt_one
        (div_pos heps hD) hsq1
      refine ⟨N, ?_⟩
      rw [dist2_iterUpdate]
      calc ((1 - a) ^ 2) ^ N * dist2 p.currentPosition (targetOf s p)
          < eps / dist2 p.currentPosition (targetOf s p) *
            dist2 p.currentPosition (targetOf s p) :=
            mul_lt_mul_of_pos_right hN hD
        _ = eps := div_mul_cancel₀ eps (ne_of_gt hD)
  · rw [hcoord n]
    exact lerp_coord_between _ _ a (le_of_lt h0) (le_of_lt h1)
  · rw [hcoord n]
    exact lerp_coord_between _ _ a (le_of_lt h0) (le_of_lt h1)
  · rw [hcoord n]
    exact lerp_coord_between _ _ a (le_of_lt h0) (le_of_lt h1)

/-- Witness for C1: the amended theorem applied in TREE_SHAPE state with
deltaTime 1/5 (factor 1/2), a concrete particle at (0,0,0) with tree target
(1,0,0), frame index 0 and bound 1. -/
theorem C1_witness :
    (dist2 (iterUpdate AppState.TREE_SHAPE (1 / 5) 1
        ⟨0, ⟨0, 0, 0⟩, ⟨1, 0, 0⟩, ⟨0, 0, 0⟩, ⟨0, 0, 0⟩, ⟨1, 1, 1⟩, 1 / 10,
          ⟨0, 0, 0⟩, ParticleType.needle⟩).currentPosition
        (targetOf AppState.TREE_SHAPE
          ⟨0, ⟨0, 0, 0⟩, ⟨1, 0, 0⟩, ⟨0, 0, 0⟩, ⟨0, 0, 0⟩, ⟨1, 1, 1⟩, 1 / 10,
            ⟨0, 0, 0⟩, ParticleType.needle⟩) =
      (1 - 1 / 5 * lerpSpeed AppState.TREE_SHAPE) ^ 2 *
        dist2 (iterUpdate AppState.TREE_SHAPE (1 / 5) 0
          ⟨0, ⟨0, 0, 0⟩, ⟨1, 0, 0⟩, ⟨0, 0, 0⟩, ⟨0, 0, 0⟩, ⟨1, 1, 1⟩, 1 / 10,
            ⟨0, 0, 0⟩, ParticleType.needle⟩).currentPosition
          (targetOf AppState.TREE_SHAPE
            ⟨0, ⟨0, 0, 0⟩, ⟨1, 0, 0⟩, ⟨0, 0, 0⟩, ⟨0, 0, 0⟩, ⟨1, 1, 1⟩, 1 / 10,
              ⟨0, 0, 0⟩, ParticleType.needle⟩)) ∧
    ((iterUpdate AppState.TREE_SHAPE (1 / 5) 0
        ⟨0, ⟨0, 0, 0⟩, ⟨1, 0, 0⟩, ⟨0, 0, 0⟩, ⟨0, 0, 0⟩, ⟨1, 1, 1⟩, 1 / 10,
          ⟨0, 0, 0⟩, ParticleType.needle⟩).currentPosition ≠
        targetOf AppState.TREE_SHAPE
          ⟨0, ⟨0, 0, 0⟩, ⟨1, 0, 0⟩, ⟨0, 0, 0⟩, ⟨0, 0, 0⟩, ⟨1, 1, 1⟩, 1 / 10,
            ⟨0, 0, 0⟩, ParticleType.needle⟩ →
      dist2 (iterUpdate AppState.TREE_SHAPE (1 / 5) 1
          ⟨0, ⟨0, 0, 0⟩, ⟨1, 0, 0⟩, ⟨0, 0, 0⟩, ⟨0, 0, 0⟩, ⟨1, 1, 1⟩, 1 / 10,
            ⟨0, 0, 0⟩, ParticleType.needle⟩).currentPosition
          (targetOf AppState.TREE_SHAPE
            ⟨0, ⟨0, 0, 0⟩, ⟨1, 0, 0⟩, ⟨0, 0, 0⟩, ⟨0, 0, 0⟩, ⟨1, 1, 1⟩, 1 / 10,
              ⟨0, 0, 0⟩, ParticleType.needle⟩) <
        dist2 (iterUpdate AppState.TREE_SHAPE (1 / 5) 0
            ⟨0, ⟨0, 0, 0⟩, ⟨1, 0, 0⟩, ⟨0, 0, 0⟩, ⟨0, 0, 0⟩, ⟨1, 1, 1⟩, 1 / 10,
              ⟨0, 0, 0⟩, ParticleType.needle⟩).currentPosition
          (targetOf AppState.TREE_SHAPE
            ⟨0, ⟨0, 0, 0⟩, ⟨1, 0, 0⟩, ⟨0, 0, 0⟩, ⟨0, 0, 0⟩, ⟨1, 1, 1⟩, 1 / 10,
              ⟨0, 0, 0⟩, ParticleType.needle⟩)) ∧
    (∃ N, dist2 (iterUpdate AppState.TREE_SHAPE (1 / 5) N
        ⟨0, ⟨0, 0, 0⟩, ⟨1, 0, 0⟩, ⟨0, 0, 0⟩, ⟨0, 0, 0⟩, ⟨1, 1, 1⟩, 1 / 10,
          ⟨0, 0, 0⟩, ParticleType.needle⟩).currentPosition
        (targetOf AppState.TREE_SHAPE
          ⟨0, ⟨0, 0, 0⟩, ⟨1, 0, 0⟩, ⟨0, 0, 0⟩, ⟨0, 0, 0⟩, ⟨1, 1, 1⟩, 1 / 10,
            ⟨0, 0, 0⟩, ParticleType.needle⟩) < 1) ∧
    (min (iterUpdate AppState.TREE_SHAPE (1 / 5) 0
          ⟨0, ⟨0, 0, 0⟩, ⟨1, 0, 0⟩, ⟨0, 0, 0⟩, ⟨0, 0, 0⟩, ⟨1, 1, 1⟩, 1 / 10,
            ⟨0, 0, 0⟩, ParticleType.needle⟩).currentPosition.x
        (targetOf AppState.TREE_SHAPE
          ⟨0, ⟨0, 0, 0⟩, ⟨1, 0, 0⟩, ⟨0, 0, 0⟩, ⟨0, 0, 0⟩, ⟨1, 1, 1⟩, 1 / 10,
            ⟨0, 0, 0⟩, ParticleType.needle⟩).x ≤
        (iterUpdate AppState.TREE_SHAPE (1 / 5) 1
          ⟨0, ⟨0, 0, 0⟩, ⟨1, 0, 0⟩, ⟨0, 0, 0⟩, ⟨0, 0, 0⟩, ⟨1, 1, 1⟩, 1 / 10,
            ⟨0, 0, 0⟩, ParticleType.needle⟩).currentPosition.x ∧
      (iterUpdate AppState.TREE_SHAPE (1 / 5) 1
          ⟨0, ⟨0, 0, 0⟩, ⟨1, 0, 0⟩, ⟨0, 0, 0⟩, ⟨0, 0, 0⟩, ⟨1, 1, 1⟩, 1 / 10,
            ⟨0, 0, 0⟩, ParticleType.needle⟩).currentPosition.x ≤
        max (iterUpdate AppState.TREE_SHAPE (1 / 5) 0
            ⟨0, ⟨0, 0, 0⟩, ⟨1, 0, 0⟩, ⟨0, 0, 0⟩, ⟨0, 0, 0⟩, ⟨1, 1, 1⟩, 1 / 10,
              ⟨0, 0, 0⟩, ParticleType.needle⟩).currentPosition.x
          (targetOf AppState.TREE_SHAPE
            ⟨0, ⟨0, 0, 0⟩, ⟨1, 0, 0⟩, ⟨0, 0, 0⟩, ⟨0, 0, 0⟩, ⟨1, 1, 1⟩, 1 / 10,
              ⟨0, 0, 0⟩, ParticleType.needle⟩).x) ∧
    (min (iterUpdate AppState.TREE_SHAPE (1 / 5) 0
          ⟨0, ⟨0, 0, 0⟩, ⟨1, 0, 0⟩, ⟨0, 0, 0⟩, ⟨0, 0, 0⟩, ⟨1, 1, 1⟩, 1 / 10,
            ⟨0, 0, 0⟩, ParticleType.needle⟩).currentPosition.y
        (targetOf AppState.TREE_SHAPE
          ⟨0, ⟨0, 0, 0⟩, ⟨1, 0, 0⟩, ⟨0, 0, 0⟩, ⟨0, 0, 0⟩, ⟨1, 1, 1⟩, 1 / 10,
            ⟨0, 0, 0⟩, ParticleType.needle⟩).y ≤
        (iterUpdate AppState.TREE_SHAPE (1 / 5) 1
          ⟨0, ⟨0, 0, 0⟩, ⟨1, 0, 0⟩, ⟨0, 0, 0⟩, ⟨0, 0, 0⟩, ⟨1, 1, 1⟩, 1 / 10,
            ⟨0, 0, 0⟩, ParticleType.needle⟩).currentPosition.y ∧
      (iterUpdate AppState.TREE_SHAPE (1 / 5) 1
          ⟨0, ⟨0, 0, 0⟩, ⟨1, 0, 0⟩, ⟨0, 0, 0⟩, ⟨0, 0, 0⟩, ⟨1, 1, 1⟩, 1 / 10,
            ⟨0, 0, 0⟩, ParticleType.needle⟩).currentPosition.y ≤
        max (iterUpdate AppState.TREE_SHAPE (1 / 5) 0
            ⟨0, ⟨0, 0, 0⟩, ⟨1, 0, 0⟩, ⟨0, 0, 0⟩, ⟨0, 0, 0⟩, ⟨1, 1, 1⟩, 1 / 10,
              ⟨0, 0, 0⟩, ParticleType.needle⟩).currentPosition.y
          (targetOf AppState.TREE_SHAPE
            ⟨0, ⟨0, 0, 0⟩, ⟨1, 0, 0⟩, ⟨0, 0, 0⟩, ⟨0, 0, 0⟩, ⟨1, 1, 1⟩, 1 / 10,
              ⟨0, 0, 0⟩, ParticleType.needle⟩).y) ∧
    (min (iterUpdate AppState.TREE_SHAPE (1 / 5) 0
          ⟨0, ⟨0, 0, 0⟩, ⟨1, 0, 0⟩, ⟨0, 0, 0⟩, ⟨0, 0, 0⟩, ⟨1, 1, 1⟩, 1 / 10,
            ⟨0, 0, 0⟩, ParticleType.needle⟩).currentPosition.z
        (targetOf AppState.TREE_SHAPE
          ⟨0, ⟨0, 0, 0⟩, ⟨1, 0, 0⟩, ⟨0, 0, 0⟩, ⟨0, 0, 0⟩, ⟨1, 1, 1⟩, 1 / 10,
            ⟨0, 0, 0⟩, ParticleType.needle⟩).z ≤
        (iterUpdate AppState.TREE_SHAPE (1 / 5) 1
          ⟨0, ⟨0, 0, 0⟩, ⟨1, 0, 0⟩, ⟨0, 0, 0⟩, ⟨0, 0, 0⟩, ⟨1, 1, 1⟩, 1 / 10,
            ⟨0, 0, 0⟩, ParticleType.needle⟩).currentPosition.z ∧
      (iterUpdate AppState.TREE_SHAPE (1 / 5) 1
          ⟨0, ⟨0, 0, 0⟩, ⟨1, 0, 0⟩, ⟨0, 0, 0⟩, ⟨0, 0, 0⟩, ⟨1, 1, 1⟩, 1 / 10,
            ⟨0, 0, 0⟩, ParticleType.needle⟩).currentPosition.z ≤
        max (iterUpdate AppState.TREE_SHAPE (1 / 5) 0
            ⟨0, ⟨0, 0, 0⟩, ⟨1, 0, 0⟩, ⟨0, 0, 0⟩, ⟨0, 0, 0⟩, ⟨1, 1, 1⟩, 1 / 10,
              ⟨0, 0, 0⟩, ParticleType.needle⟩).currentPosition.z
          (targetOf AppState.TREE_SHAPE
            ⟨0, ⟨0, 0, 0⟩, ⟨1, 0, 0⟩, ⟨0, 0, 0⟩, ⟨0, 0, 0⟩, ⟨1, 1, 1⟩, 1 / 10,
              ⟨0, 0, 0⟩, ParticleType.needle⟩).z) :=
  C1_convergence AppState.TREE_SHAPE (1 / 5)
    ⟨0, ⟨0, 0, 0⟩, ⟨1, 0, 0⟩, ⟨0, 0, 0⟩, ⟨0, 0, 0⟩, ⟨1, 1, 1⟩, 1 / 10,
      ⟨0, 0, 0⟩, ParticleType.needle⟩ 0 1
    (by rw [show lerpSpeed AppState.TREE_SHAPE = 5 / 2 from rfl]; norm_num)
    (by rw [show lerpSpeed AppState.TREE_SHAPE = 5 / 2 from rfl]; norm_num)
    (by norm_num)

end MerryTree
